import Mathlib

/-!
Verification of the AutoIntelli application bootstrap (`autointelli/__init__.py`).

The bootstrap is embedded shallowly:

* the process environment is a function `String → Option String`
  (`os.environ.get` returns `none` when the variable is unset);
* the Notion client constructor is passed in as a function
  `String → Nat → Option NotionClient`; a result of `none` models the
  constructor raising an exception (the code catches every exception and
  leaves the client handle `None`);
* `create_app` returns the ordered trace of logged-warning / logged-error /
  extension-initialisation events together with either the configured
  application instance or the `EnvironmentError` raised when `DATABASE_URL`
  is missing;
* Python truthiness of an optional string (`if not database_url`) is
  `pyOptStrFalsy`; Python `int(str)` is `pyIntParse`.
-/

namespace AutoIntelli

/-- Python truthiness test for an optional string: `None` and the empty
string are falsy (`if not database_url:` / `if app.config.get(...)`). -/
def pyOptStrFalsy : Option String → Bool
  | none => true
  | some v => v.isEmpty

/-- `str.lower()`, character by character.  (Python lower-cases the full
Unicode range; `Char.toLower` covers ASCII, which is all the flag values the
code compares against.) -/
def pyLower (s : String) : String :=
  ⟨s.data.map Char.toLower⟩

/-- `str.strip()`: drop leading and trailing whitespace, as a char list. -/
def pyStrip (s : String) : List Char :=
  ((s.data.dropWhile Char.isWhitespace).reverse.dropWhile Char.isWhitespace).reverse

/-- Value of a list of decimal digit characters. -/
def digitsVal (l : List Char) : Nat :=
  l.foldl (fun a c => 10 * a + (c.toNat - 48)) 0

/-- Python `int(str)`: optional surrounding whitespace, optional sign, then a
non-empty run of decimal digits; anything else raises `ValueError`, modelled
as `none`.  (Python's underscore digit grouping and non-ASCII digits are not
modelled; no claim depends on them.) -/
def pyIntParse (s : String) : Option Int :=
  match pyStrip s with
  | [] => none
  | c :: rest =>
    if c = '+' then
      if rest ≠ [] ∧ rest.all Char.isDigit then some (Int.ofNat (digitsVal rest))
      else none
    else if c = '-' then
      if rest ≠ [] ∧ rest.all Char.isDigit then some (-(Int.ofNat (digitsVal rest)))
      else none
    else if (c :: rest).all Char.isDigit then some (Int.ofNat (digitsVal (c :: rest)))
    else none

/-- The `EnvironmentError` raised by `create_app`. -/
structure EnvironmentError where
  message : String
deriving DecidableEq, Repr

/-- A constructed `notion_client.Client` handle (`Client(auth=..., timeout_ms=...)`). -/
structure NotionClient where
  auth : String
  timeout_ms : Nat
deriving DecidableEq, Repr

/-- `itsdangerous.URLSafeTimedSerializer(secret)`: only the secret it was
built from is relevant here. -/
structure URLSafeTimedSerializer where
  secret : String
deriving DecidableEq, Repr

/-- A row of the `User` model (`models.py` is outside this file; `load_user`
never inspects the row, so only an opaque identity is kept). -/
structure User where
  id : Int
deriving DecidableEq, Repr

/-- Observable bootstrap events, in source order: the two mail warnings
(lines 82 and 93), the Notion-initialisation error log / missing-key warning
(lines 117 and 120), then the four extension initialisations
(`db.init_app`, `migrate.init_app`, `login_manager.init_app`,
`mail.init_app`, lines 125-130). -/
inductive BootEvent
  | warnMailPort
  | warnMailCredentials
  | errorNotionInit
  | warnNoNotionKey
  | dbInitApp
  | migrateInitApp
  | loginManagerInitApp
  | mailInitApp
deriving DecidableEq, Repr

/-- Whether a boot event is one of the four extension initialisations. -/
def BootEvent.isExtInit : BootEvent → Bool
  | .dbInitApp => true
  | .migrateInitApp => true
  | .loginManagerInitApp => true
  | .mailInitApp => true
  | _ => false

/-- The `app.config` mapping as populated by `create_app` (lines 51-105). -/
structure AppConfig where
  SECRET_KEY : String
  SQLALCHEMY_DATABASE_URI : Option String
  SQLALCHEMY_TRACK_MODIFICATIONS : Bool
  MAIL_SERVER : String
  MAIL_PORT : Int
  MAIL_USE_TLS : Bool
  MAIL_USE_SSL : Bool
  MAIL_USERNAME : Option String
  MAIL_PASSWORD : Option String
  MAIL_DEFAULT_SENDER : Option String
  NOTION_API_KEY : Option String
  DATABASE_ID_PROYECTOS : Option String
  DATABASE_ID_PARTIDAS : Option String
  DATABASE_ID_PLANES : Option String
  DATABASE_ID_MATERIALES_DB1 : Option String
  DATABASE_ID_MATERIALES_DB2 : Option String
deriving DecidableEq, Repr

/-- The configured application instance returned by `create_app`:
configuration mapping, `app.notion_client`, `app.url_serializer`, the
login-manager policy fields, and the registered blueprints as
(name, optional URL route root) pairs, in registration order. -/
structure App where
  config : AppConfig
  notion_client : Option NotionClient
  url_serializer : URLSafeTimedSerializer
  login_view : String
  login_message_category : String
  login_message : String
  blueprints : List (String × Option String)
deriving DecidableEq, Repr

/-- The error raised on line 71 when `DATABASE_URL` is falsy. -/
def dbUrlEnvError : EnvironmentError :=
  ⟨"La variable de entorno DATABASE_URL no está configurada. La aplicación no puede conectar a la base de datos."⟩

/-- The body of `create_app` past the fatal `DATABASE_URL` check
(lines 76-185): mail configuration, Notion configuration and client
construction, extension initialisation, serializer refresh, login-manager
policy, `load_user` registration and blueprint registration.  Returns the
event trace and the configured instance. -/
def create_app_configured (env : String → Option String)
    (notionCtor : String → Nat → Option NotionClient) :
    List BootEvent × App :=
  let secret_key := (env "SECRET_KEY").getD "una_clave_secreta_por_defecto_muy_segura_cambiar_en_produccion"
  let database_url := env "DATABASE_URL"
  let mailPortStep : Int × List BootEvent :=
    match env "MAIL_PORT" with
    | none => (465, [])
    | some v =>
      match pyIntParse v with
      | some n => (n, [])
      | none => (465, [BootEvent.warnMailPort])
  let mail_use_tls := pyLower ((env "MAIL_USE_TLS").getD "False") == "true"
  let mail_use_ssl := pyLower ((env "MAIL_USE_SSL").getD "True") == "true"
  let mail_username := env "MAIL_USERNAME"
  let mail_password := env "MAIL_PASSWORD"
  let mail_default_sender :=
    match env "MAIL_DEFAULT_SENDER" with
    | some v => some v
    | none => mail_username
  let credEvents : List BootEvent :=
    if pyOptStrFalsy mail_username || pyOptStrFalsy mail_password then
      [BootEvent.warnMailCredentials]
    else []
  let config : AppConfig :=
    { SECRET_KEY := secret_key
      SQLALCHEMY_DATABASE_URI := database_url
      SQLALCHEMY_TRACK_MODIFICATIONS := false
      MAIL_SERVER := (env "MAIL_SERVER").getD "smtp.gmail.com"
      MAIL_PORT := mailPortStep.1
      MAIL_USE_TLS := mail_use_tls
      MAIL_USE_SSL := mail_use_ssl
      MAIL_USERNAME := mail_username
      MAIL_PASSWORD := mail_password
      MAIL_DEFAULT_SENDER := mail_default_sender
      NOTION_API_KEY := env "NOTION_API_KEY"
      DATABASE_ID_PROYECTOS := env "DATABASE_ID_PROYECTOS"
      DATABASE_ID_PARTIDAS := env "DATABASE_ID_PARTIDAS"
      DATABASE_ID_PLANES := env "DATABASE_ID_PLANES"
      DATABASE_ID_MATERIALES_DB1 := env "DATABASE_ID"
      DATABASE_ID_MATERIALES_DB2 := env "DATABASE_ID_2" }
  let notionStep : Option NotionClient × List BootEvent :=
    if pyOptStrFalsy config.NOTION_API_KEY then
      (none, [BootEvent.warnNoNotionKey])
    else
      match notionCtor ((config.NOTION_API_KEY).getD "") 60000 with
      | some c => (some c, [])
      | none => (none, [BootEvent.errorNotionInit])
  let app : App :=
    { config := config
      notion_client := notionStep.1
      url_serializer := ⟨config.SECRET_KEY⟩
      login_view := "auth.login"
      login_message_category := "info"
      login_message := "Por favor, inicia sesión para acceder a esta página."
      blueprints :=
        [("main", none), ("auth", some "/auth"),
         ("solicitudes", some "/solicitudes"), ("ajustes", some "/ajustes"),
         ("proyectos", some "/proyectos"), ("accesorios", some "/accesorios"),
         ("almacen", some "/almacen"), ("compras", some "/compras")] }
  (mailPortStep.2 ++ credEvents ++ notionStep.2 ++
    [BootEvent.dbInitApp, BootEvent.migrateInitApp,
     BootEvent.loginManagerInitApp, BootEvent.mailInitApp], app)

/-- `create_app()` (lines 34-185).  Reads `DATABASE_URL`; when it is falsy
(unset or empty) the `EnvironmentError` of line 71 is raised before any
extension is initialised (empty event trace); otherwise the configured
instance is built and returned. -/
def create_app (env : String → Option String)
    (notionCtor : String → Nat → Option NotionClient) :
    List BootEvent × Except EnvironmentError App :=
  let database_url := env "DATABASE_URL"
  if pyOptStrFalsy database_url then
    ([], Except.error dbUrlEnvError)
  else
    ((create_app_configured env notionCtor).1,
     Except.ok (create_app_configured env notionCtor).2)

/-- The `load_user` callback (lines 146-159).  The primary-key lookup
`db.session.get(User, ·)` is the function `session` (a miss is `none`, it
does not raise).  `int(user_id)` failing raises `ValueError`, caught by the
`except (ValueError, TypeError)` clause, which logs the error and returns
`None`.  The boolean records whether that error was logged. -/
def load_user (session : Int → Option User) (user_id : String) :
    Option User × Bool :=
  match pyIntParse user_id with
  | some n => (session n, false)
  | none => (none, true)

/-- A request path (as a char list) matches a blueprint route root `p` when
it equals `p` or continues it after a `/` separator. -/
def MatchesPath (p path : List Char) : Prop :=
  p = path ∨ p ++ [ '/'] <+: path

/-- Check that no route root in the list, extended with the separator, is a
leading part of another route root (nor of itself, which cannot happen for
slash-terminated extensions of distinct roots). -/
def nonNestedB (l : List (List Char)) : Bool :=
  l.all fun p => l.all fun q => p == q || !((p ++ [ '/']).isPrefixOf q)

/-- A process environment with no variable set. -/
def env0 : String → Option String := fun _ => none

/-- A Notion constructor that always raises (models `Client(...)` failing). -/
def ctor0 : String → Nat → Option NotionClient := fun _ _ => none

/-- A Notion constructor that always succeeds. -/
def ctorOk : String → Nat → Option NotionClient := fun k t => some ⟨k, t⟩

/-- An environment with only `DATABASE_URL` set. -/
def envDB : String → Option String := fun k =>
  if k = "DATABASE_URL" then some "postgresql://localhost/autointelli" else none

/-- An environment where `DATABASE_URL` is set to the empty string. -/
def envDBEmpty : String → Option String := fun k =>
  if k = "DATABASE_URL" then some "" else none

/-- An environment with `DATABASE_URL` set and a non-numeric `MAIL_PORT`. -/
def envDBBadPort : String → Option String := fun k =>
  if k = "DATABASE_URL" then some "postgresql://localhost/autointelli"
  else if k = "MAIL_PORT" then some "not-a-number" else none

/-- An environment with `DATABASE_URL` set and `MAIL_USE_SSL=1`. -/
def envDBSSL1 : String → Option String := fun k =>
  if k = "DATABASE_URL" then some "postgresql://localhost/autointelli"
  else if k = "MAIL_USE_SSL" then some "1" else none

/-- An environment with `DATABASE_URL` and `NOTION_API_KEY` set. -/
def envDBNotion : String → Option String := fun k =>
  if k = "DATABASE_URL" then some "postgresql://localhost/autointelli"
  else if k = "NOTION_API_KEY" then some "secret_ntn_key" else none

/-- When the extension of a route root with the separator leads a longer
slash-terminated root, it already leads the bare root. -/
theorem append_sep_of_lt {p q : List Char}
    (h : p ++ [ '/'] <+: q ++ [ '/']) (hlen : p.length < q.length) :
    p ++ [ '/'] <+: q := by
  have hle : (p ++ [ '/']).length ≤ q.length := by
    simp only [List.length_append, List.length_cons, List.length_nil]
    omega
  exact ( List.isPrefix_append_of_length hle).mp h

/-- If no route root in `l`, extended with the separator, leads another root
in `l`, then a path matches at most one root of `l`. -/
theorem matchesPath_unique {l : List (List Char)} (hnn : nonNestedB l = true)
    {path p q : List Char} (hp : p ∈ l) (hq : q ∈ l)
    (hmp : MatchesPath p path) (hmq : MatchesPath q path) : p = q := by
  by_cases hpq : p = q
  · exact hpq
  · exfalso
    have key : ∀ a b, a ∈ l → b ∈ l → a ≠ b → ¬ (a ++ [ '/'] <+: b) := by
      intro a b ha hb hab hpre
      have h1 := List.all_eq_true.mp (List.all_eq_true.mp hnn a ha) b hb
      have h2 : a = b ∨ (a ++ [ '/']).isPrefixOf b = false := by
        simpa using h1
      rcases h2 with h3 | h3
      · exact hab h3
      · exact absurd ( List.isPrefixOf_iff_prefix.mpr hpre) (by simp [h3])
    rcases hmp with rfl | hp1
    · rcases hmq with rfl | hq1
      · exact hpq rfl
      · exact key q p hq hp (Ne.symm hpq) hq1
    · rcases hmq with rfl | hq1
      · exact key p q hp hq hpq hp1
      · rcases List.prefix_or_prefix_of_prefix hp1 hq1 with h | h
        · rcases Nat.lt_or_ge p.length q.length with hlt | hge
          · exact key p q hp hq hpq (append_sep_of_lt h hlt)
          · have hlen : p.length = q.length := by
              have := h.length_le
              simp only [List.length_append, List.length_cons,
                List.length_nil] at this
              omega
            have heq : p ++ [ '/'] = q ++ [ '/'] :=
              h.eq_of_length (by simp [hlen])
            exact hpq (by simpa using heq)
        · rcases Nat.lt_or_ge q.length p.length with hlt | hge
          · exact key q p hq hp (Ne.symm hpq) (append_sep_of_lt h hlt)
          · have hlen : q.length = p.length := by
              have := h.length_le
              simp only [List.length_append, List.length_cons,
                List.length_nil] at this
              omega
            have heq : q ++ [ '/'] = p ++ [ '/'] :=
              h.eq_of_length (by simp [hlen])
            exact hpq (by simpa using heq.symm)

/-- When `DATABASE_URL` is truthy, `create_app` returns the configured
instance together with its event trace. -/
theorem create_app_ok (env : String → Option String)
    (ctor : String → Nat → Option NotionClient)
    (hdb : pyOptStrFalsy (env "DATABASE_URL") = false) :
    create_app env ctor =
      ((create_app_configured env ctor).1,
       Except.ok (create_app_configured env ctor).2) := by
  simp [create_app, hdb]

/-- C1: whenever `DATABASE_URL` is unset, `create_app` raises the
`EnvironmentError` naming the missing variable and returns no application
instance, with an empty event trace — in particular before any of the four
extension initialisations. -/
theorem claim_C1 (env : String → Option String)
    (ctor : String → Nat → Option NotionClient)
    (h : env "DATABASE_URL" = none) :
    create_app env ctor = ([], Except.error dbUrlEnvError) ∧
    (∀ e, e ∈ (create_app env ctor).1 → e.isExtInit = false) ∧
    (∃ pre post, dbUrlEnvError.message = pre ++ "DATABASE_URL" ++ post) := by
  refine ⟨?_, ?_, "La variable de entorno ",
    " no está configurada. La aplicación no puede conectar a la base de datos.", ?_⟩
  · simp [create_app, h, pyOptStrFalsy]
  · simp [create_app, h, pyOptStrFalsy]
  · rfl

/-- C1 witness: the empty environment. -/
theorem claim_C1_witness :
    create_app env0 ctor0 = ([], Except.error dbUrlEnvError) ∧
    (∀ e, e ∈ (create_app env0 ctor0).1 → e.isExtInit = false) ∧
    (∃ pre post, dbUrlEnvError.message = pre ++ "DATABASE_URL" ++ post) :=
  claim_C1 env0 ctor0 rfl

/-- C2: the `load_user` callback returns `None` (logging the error) whenever
integer conversion of the identifier fails, returns the session lookup result
otherwise (a lookup miss is `None`), and in particular returns `None` without
raising for the identifier `"not-an-integer"`. -/
theorem claim_C2 (session : Int → Option User) (uid : String) :
    (pyIntParse uid = none → load_user session uid = (none, true)) ∧
    (∀ n, pyIntParse uid = some n → load_user session uid = (session n, false)) ∧
    load_user session "not-an-integer" = (none, true) := by
  have hni : pyIntParse "not-an-integer" = none := by decide
  refine ⟨?_, ?_, ?_⟩
  · intro h
    simp [load_user, h]
  · intro n h
    simp [load_user, h]
  · simp [load_user, hni]

/-- C2 witness: the identifier `"not-an-integer"` with an empty session. -/
theorem claim_C2_witness :
    load_user (fun _ => none) "not-an-integer" = (none, true) :=
  (claim_C2 (fun _ => none) "not-an-integer").2.2

/-- C9: when `DATABASE_URL` is set but empty, `create_app` also raises the
fatal `EnvironmentError` and returns no application instance — the
mandatory-configuration check treats every falsy value as absent. -/
theorem claim_C9 (env : String → Option String)
    (ctor : String → Nat → Option NotionClient)
    (h : env "DATABASE_URL" = some "") :
    create_app env ctor = ([], Except.error dbUrlEnvError) := by
  simp [create_app, h, pyOptStrFalsy, String.isEmpty]

/-- C9 witness: the environment mapping `DATABASE_URL` to the empty string. -/
theorem claim_C9_witness :
    create_app envDBEmpty ctor0 = ([], Except.error dbUrlEnvError) :=
  claim_C9 envDBEmpty ctor0 rfl

/-- C3: whenever `create_app` returns an instance, its `url_serializer` is
built from the final configured secret key, and when `SECRET_KEY` is unset
that key is the factory default, not the module-import-time placeholder
`"default_secret_key"`. -/
theorem claim_C3 (env : String → Option String)
    (ctor : String → Nat → Option NotionClient)
    (hdb : pyOptStrFalsy (env "DATABASE_URL") = false) :
    ∃ tr app, create_app env ctor = (tr, Except.ok app) ∧
      app.url_serializer = ⟨app.config.SECRET_KEY⟩ ∧
      (env "SECRET_KEY" = none →
        app.url_serializer.secret ≠ "default_secret_key") := by
  refine ⟨_, _, create_app_ok env ctor hdb, rfl, ?_⟩
  intro h
  simp only [create_app_configured, h, Option.getD]
  decide

/-- C3 witness: an environment with only `DATABASE_URL` set. -/
theorem claim_C3_witness :
    ∃ tr app, create_app envDB ctor0 = (tr, Except.ok app) ∧
      app.url_serializer = ⟨app.config.SECRET_KEY⟩ ∧
      (envDB "SECRET_KEY" = none →
        app.url_serializer.secret ≠ "default_secret_key") :=
  claim_C3 envDB ctor0 rfl

/-- C4: `create_app` never aborts because of the Notion client: whenever
`DATABASE_URL` is truthy the instance is returned; a falsy `NOTION_API_KEY`
leaves the handle `None`; a truthy key whose constructor raises leaves the
handle `None` (with the error logged); a truthy key whose constructor
succeeds stores the client. -/
theorem claim_C4 (env : String → Option String)
    (ctor : String → Nat → Option NotionClient)
    (hdb : pyOptStrFalsy (env "DATABASE_URL") = false) :
    ∃ tr app, create_app env ctor = (tr, Except.ok app) ∧
      (pyOptStrFalsy (env "NOTION_API_KEY") = true → app.notion_client = none) ∧
      (∀ k, env "NOTION_API_KEY" = some k → k.isEmpty = false →
        ctor k 60000 = none →
        app.notion_client = none ∧ BootEvent.errorNotionInit ∈ tr) ∧
      (∀ k c, env "NOTION_API_KEY" = some k → k.isEmpty = false →
        ctor k 60000 = some c → app.notion_client = some c) := by
  refine ⟨_, _, create_app_ok env ctor hdb, ?_, ?_, ?_⟩
  · intro h
    simp [create_app_configured, h]
  · intro k hk hke hctor
    constructor
    · simp [create_app_configured, hk, hke, hctor, pyOptStrFalsy]
    · simp [create_app_configured, hk, hke, hctor, pyOptStrFalsy]
  · intro k c hk hke hctor
    simp [create_app_configured, hk, hke, hctor, pyOptStrFalsy]

/-- C4 witness: `NOTION_API_KEY` present and a constructor that raises. -/
theorem claim_C4_witness :
    ∃ tr app, create_app envDBNotion ctor0 = (tr, Except.ok app) ∧
      (pyOptStrFalsy (envDBNotion "NOTION_API_KEY") = true →
        app.notion_client = none) ∧
      (∀ k, envDBNotion "NOTION_API_KEY" = some k → k.isEmpty = false →
        ctor0 k 60000 = none →
        app.notion_client = none ∧ BootEvent.errorNotionInit ∈ tr) ∧
      (∀ k c, envDBNotion "NOTION_API_KEY" = some k → k.isEmpty = false →
        ctor0 k 60000 = some c → app.notion_client = some c) :=
  claim_C4 envDBNotion ctor0 rfl

/-- C5: a set `MAIL_PORT` value that does not parse as an integer does not
make `create_app` fail: the configured mail port is 465 and the warning is
logged. -/
theorem claim_C5 (env : String → Option String)
    (ctor : String → Nat → Option NotionClient) (v : String)
    (hdb : pyOptStrFalsy (env "DATABASE_URL") = false)
    (hmp : env "MAIL_PORT" = some v) (hbad : pyIntParse v = none) :
    ∃ tr app, create_app env ctor = (tr, Except.ok app) ∧
      app.config.MAIL_PORT = 465 ∧ BootEvent.warnMailPort ∈ tr := by
  refine ⟨_, _, create_app_ok env ctor hdb, ?_, ?_⟩
  · simp [create_app_configured, hmp, hbad]
  · simp [create_app_configured, hmp, hbad]

/-- C5 witness: `MAIL_PORT="not-a-number"`. -/
theorem claim_C5_witness :
    ∃ tr app, create_app envDBBadPort ctor0 = (tr, Except.ok app) ∧
      app.config.MAIL_PORT = 465 ∧ BootEvent.warnMailPort ∈ tr :=
  claim_C5 envDBBadPort ctor0 "not-a-number" rfl rfl (by decide)

/-- C6: the documented fallbacks apply when the corresponding variable is
unset: the factory-default secret key, `smtp.gmail.com`, TLS off, SSL on,
and the default sender falling back to the configured mail username. -/
theorem claim_C6 (env : String → Option String)
    (ctor : String → Nat → Option NotionClient)
    (hdb : pyOptStrFalsy (env "DATABASE_URL") = false) :
    ∃ tr app, create_app env ctor = (tr, Except.ok app) ∧
      (env "SECRET_KEY" = none → app.config.SECRET_KEY =
        "una_clave_secreta_por_defecto_muy_segura_cambiar_en_produccion") ∧
      (env "MAIL_SERVER" = none → app.config.MAIL_SERVER = "smtp.gmail.com") ∧
      (env "MAIL_USE_TLS" = none → app.config.MAIL_USE_TLS = false) ∧
      (env "MAIL_USE_SSL" = none → app.config.MAIL_USE_SSL = true) ∧
      (env "MAIL_DEFAULT_SENDER" = none →
        app.config.MAIL_DEFAULT_SENDER = app.config.MAIL_USERNAME) := by
  refine ⟨_, _, create_app_ok env ctor hdb, ?_, ?_, ?_, ?_, ?_⟩
  · intro h
    simp [create_app_configured, h]
  · intro h
    simp [create_app_configured, h]
  · intro h
    simp only [create_app_configured, h, Option.getD]
    decide
  · intro h
    simp only [create_app_configured, h, Option.getD]
    decide
  · intro h
    simp [create_app_configured, h]

/-- C6 witness: an environment with only `DATABASE_URL` set. -/
theorem claim_C6_witness :
    ∃ tr app, create_app envDB ctor0 = (tr, Except.ok app) ∧
      (envDB "SECRET_KEY" = none → app.config.SECRET_KEY =
        "una_clave_secreta_por_defecto_muy_segura_cambiar_en_produccion") ∧
      (envDB "MAIL_SERVER" = none → app.config.MAIL_SERVER = "smtp.gmail.com") ∧
      (envDB "MAIL_USE_TLS" = none → app.config.MAIL_USE_TLS = false) ∧
      (envDB "MAIL_USE_SSL" = none → app.config.MAIL_USE_SSL = true) ∧
      (envDB "MAIL_DEFAULT_SENDER" = none →
        app.config.MAIL_DEFAULT_SENDER = app.config.MAIL_USERNAME) :=
  claim_C6 envDB ctor0 rfl

/-- C7: every successful `create_app` registers exactly the eight blueprints
with the listed URL route roots, the non-empty roots are pairwise distinct,
and a request path matches at most one of them. -/
theorem claim_C7 (env : String → Option String)
    (ctor : String → Nat → Option NotionClient)
    (hdb : pyOptStrFalsy (env "DATABASE_URL") = false) :
    ∃ tr app, create_app env ctor = (tr, Except.ok app) ∧
      app.blueprints =
        [("main", none), ("auth", some "/auth"),
         ("solicitudes", some "/solicitudes"), ("ajustes", some "/ajustes"),
         ("proyectos", some "/proyectos"), ("accesorios", some "/accesorios"),
         ("almacen", some "/almacen"), ("compras", some "/compras")] ∧
      (app.blueprints.filterMap Prod.snd).Nodup ∧
      (∀ path p q, p ∈ app.blueprints.filterMap Prod.snd →
        q ∈ app.blueprints.filterMap Prod.snd →
        MatchesPath p.data path → MatchesPath q.data path → p = q) := by
  have hfl : ((create_app_configured env ctor).2).blueprints.filterMap Prod.snd =
      ["/auth", "/solicitudes", "/ajustes", "/proyectos", "/accesorios",
       "/almacen", "/compras"] := rfl
  refine ⟨_, _, create_app_ok env ctor hdb, rfl, ?_, ?_⟩
  · rw [hfl]
    decide
  · intro path p q hp hq hmp hmq
    rw [hfl] at hp hq
    have hnn : nonNestedB ((["/auth", "/solicitudes", "/ajustes", "/proyectos",
        "/accesorios", "/almacen", "/compras"]).map String.data) = true := by
      decide
    exact String.ext (matchesPath_unique hnn
      (List.mem_map_of_mem String.data hp)
      (List.mem_map_of_mem String.data hq) hmp hmq)

/-- C7 witness: an environment with only `DATABASE_URL` set. -/
theorem claim_C7_witness :
    ∃ tr app, create_app envDB ctorOk = (tr, Except.ok app) ∧
      app.blueprints =
        [("main", none), ("auth", some "/auth"),
         ("solicitudes", some "/solicitudes"), ("ajustes", some "/ajustes"),
         ("proyectos", some "/proyectos"), ("accesorios", some "/accesorios"),
         ("almacen", some "/almacen"), ("compras", some "/compras")] ∧
      (app.blueprints.filterMap Prod.snd).Nodup ∧
      (∀ path p q, p ∈ app.blueprints.filterMap Prod.snd →
        q ∈ app.blueprints.filterMap Prod.snd →
        MatchesPath p.data path → MatchesPath q.data path → p = q) :=
  claim_C7 envDB ctorOk rfl

/-- C8: the Notion resource identifiers are read from the literal environment
variable names with no defaults; in particular `DATABASE_ID_MATERIALES_DB1`
comes from `DATABASE_ID` and `DATABASE_ID_MATERIALES_DB2` from
`DATABASE_ID_2`. -/
theorem claim_C8 (env : String → Option String)
    (ctor : String → Nat → Option NotionClient)
    (hdb : pyOptStrFalsy (env "DATABASE_URL") = false) :
    ∃ tr app, create_app env ctor = (tr, Except.ok app) ∧
      app.config.NOTION_API_KEY = env "NOTION_API_KEY" ∧
      app.config.DATABASE_ID_PROYECTOS = env "DATABASE_ID_PROYECTOS" ∧
      app.config.DATABASE_ID_PARTIDAS = env "DATABASE_ID_PARTIDAS" ∧
      app.config.DATABASE_ID_PLANES = env "DATABASE_ID_PLANES" ∧
      app.config.DATABASE_ID_MATERIALES_DB1 = env "DATABASE_ID" ∧
      app.config.DATABASE_ID_MATERIALES_DB2 = env "DATABASE_ID_2" :=
  ⟨_, _, create_app_ok env ctor hdb, rfl, rfl, rfl, rfl, rfl, rfl⟩

/-- C8 witness: an environment with only `DATABASE_URL` set. -/
theorem claim_C8_witness :
    ∃ tr app, create_app envDB ctor0 = (tr, Except.ok app) ∧
      app.config.NOTION_API_KEY = envDB "NOTION_API_KEY" ∧
      app.config.DATABASE_ID_PROYECTOS = envDB "DATABASE_ID_PROYECTOS" ∧
      app.config.DATABASE_ID_PARTIDAS = envDB "DATABASE_ID_PARTIDAS" ∧
      app.config.DATABASE_ID_PLANES = envDB "DATABASE_ID_PLANES" ∧
      app.config.DATABASE_ID_MATERIALES_DB1 = envDB "DATABASE_ID" ∧
      app.config.DATABASE_ID_MATERIALES_DB2 = envDB "DATABASE_ID_2" :=
  claim_C8 envDB ctor0 rfl

/-- C10: for any set value of `MAIL_USE_TLS` / `MAIL_USE_SSL`, the configured
flag is true exactly when the value, lower-cased, equals the string
`"true"`; any other set value (such as `"1"`) yields false. -/
theorem claim_C10 (env : String → Option String)
    (ctor : String → Nat → Option NotionClient)
    (hdb : pyOptStrFalsy (env "DATABASE_URL") = false) :
    ∃ tr app, create_app env ctor = (tr, Except.ok app) ∧
      (∀ v, env "MAIL_USE_TLS" = some v →
        (app.config.MAIL_USE_TLS = true ↔ pyLower v = "true")) ∧
      (∀ v, env "MAIL_USE_SSL" = some v →
        (app.config.MAIL_USE_SSL = true ↔ pyLower v = "true")) := by
  refine ⟨_, _, create_app_ok env ctor hdb, ?_, ?_⟩
  · intro v h
    have hfl : ((create_app_configured env ctor).2).config.MAIL_USE_TLS =
        (pyLower ((env "MAIL_USE_TLS").getD "False") == "true") := rfl
    rw [hfl, h]
    simp
  · intro v h
    have hfl : ((create_app_configured env ctor).2).config.MAIL_USE_SSL =
        (pyLower ((env "MAIL_USE_SSL").getD "True") == "true") := rfl
    rw [hfl, h]
    simp

/-- C10 witness: `MAIL_USE_SSL="1"` yields an SSL flag of false. -/
theorem claim_C10_witness :
    (∃ tr app, create_app envDBSSL1 ctor0 = (tr, Except.ok app) ∧
      (∀ v, envDBSSL1 "MAIL_USE_TLS" = some v →
        (app.config.MAIL_USE_TLS = true ↔ pyLower v = "true")) ∧
      (∀ v, envDBSSL1 "MAIL_USE_SSL" = some v →
        (app.config.MAIL_USE_SSL = true ↔ pyLower v = "true"))) ∧
    pyLower "1" ≠ "true" :=
  ⟨claim_C10 envDBSSL1 ctor0 rfl, by decide⟩

end AutoIntelli
